import Mathlib

/-
Shallow embedding of the distributed calculator example (client connection
state machine, interactive REPL and server startup) for checking the
specification claims. The client is modelled as a state-plus-behavior record
and a step function over incoming events; side effects (prints, monitor
registrations, broker requests, self-sends) are returned as an explicit
effect list. The runtime semantics of request/await (the agent suspends its
regular behavior until the resolver responds, then resumes the previous
behavior unless the continuation installed a new one) is modelled from the
specification of the broker, section 4.2, since the runtime itself is not
among the source files; everything else is translated directly from the
source of the example.
-/

namespace DistributedCalculator

/-- Operation kind of the calculator service: add_atom or sub_atom. -/
inductive Op
  | add
  | sub
deriving DecidableEq, Repr

/-- The stateless worker behavior calculator_fun: integer add and subtract. -/
def calculator_fun : Op → Int → Int → Int
  | Op.add, a, b => a + b
  | Op.sub, a, b => a - b

/-- A queued calculator task: operation plus the two operands. -/
structure task where
  op : Op
  lhs : Int
  rhs : Int
deriving DecidableEq, Repr

/-- Client state: the currently tracked server handle (a nullable strong
actor pointer, modelled as an optional handle id) and the queue of pending
tasks. -/
structure state where
  current_server : Option Nat
  tasks : List task
deriving DecidableEq, Repr

/-- The currently installed behavior of the client actor. The behavior
returned by the running transition captures the calculator handle in its
closure, so it is recorded in the constructor. The connecting phase is not a
behavior of its own: it is the await window of the resolver request, after
which the previous behavior resumes unless the continuation replaced it. -/
inductive behavior
  | unconnected
  | running (calculator : Nat)
deriving DecidableEq, Repr

/-- A client actor: its state record and its installed behavior. -/
structure client where
  st : state
  beh : behavior
deriving DecidableEq, Repr

/-- Timeout of an arithmetic request: task_timeout is ten seconds. -/
def task_timeout : Option Nat := some 10

/-- The infinite timeout used for the resolver request: no deadline at all. -/
def infinite : Option Nat := none

/-- Outcome of the middleman resolver call for connect(host, port): either a
reply carrying a nullable server handle and the set of type interface names,
or an error. -/
inductive resolveResult
  | ok (serv : Option Nat) (ifs : List String)
  | err (e : String)
deriving DecidableEq, Repr

/-- Observable effects emitted by the client while processing one event.
thenRequest is a continuation-mode broker request (request().then, used for
arithmetic dispatch); awaitRequestMM is the await-mode resolver request sent
to the middleman (request().await, used for connect). -/
inductive effect
  | printNoServerFound (host : String) (port : Nat)
  | printTypedActorFound (host : String) (port : Nat)
  | printConnected
  | printCannotConnect (host : String) (port : Nat) (e : String)
  | printLostConnection
  | printResult (lhs : Int) (op : Op) (rhs : Int) (result : Int)
  | monitor (h : Nat)
  | thenRequest (target : Nat) (timeout : Option Nat) (op : Op) (lhs rhs : Int)
  | awaitRequestMM (timeout : Option Nat) (host : String) (port : Nat)
  | sendSelf (op : Op) (lhs rhs : Int)
deriving DecidableEq, Repr

/-- The send_task lambda of the running behavior: issue a continuation-mode
request to the calculator with the task_timeout deadline. -/
def send_task (calculator : Nat) (op : Op) (x y : Int) : effect :=
  effect.thenRequest calculator task_timeout op x y

/-- The running transition: dispatch every queued task through the broker in
queue order via send_task, clear the task queue, and install the running
behavior capturing the calculator handle. -/
def running (s : state) (calculator : Nat) : state × behavior × List effect :=
  (⟨s.current_server, []⟩, behavior.running calculator,
    s.tasks.map (fun t => send_task calculator t.op t.lhs t.rhs))

/-- The connecting transition: clear current_server, issue the resolver
request with the infinite timeout, and process the resolver outcome. A null
server handle or a non-empty interface set only prints a diagnostic and
returns, leaving the previous behavior installed; a resolver error becomes
unconnected; a compatible peer is adopted (current_server set, monitor
subscribed) and the client becomes running. -/
def connecting (s : state) (prev : behavior) (host : String) (port : Nat)
    (r : resolveResult) : state × behavior × List effect :=
  let s1 : state := ⟨none, s.tasks⟩
  let pre : List effect := [effect.awaitRequestMM infinite host port]
  match r with
  | resolveResult.ok none _ =>
      (s1, prev, pre ++ [effect.printNoServerFound host port])
  | resolveResult.ok (some serv) ifs =>
      if ifs.isEmpty then
        let s2 : state := ⟨some serv, s1.tasks⟩
        let rn := running s2 serv
        (rn.1, rn.2.1, pre ++ effect.printConnected :: effect.monitor serv :: rn.2.2)
      else
        (s1, prev, pre ++ [effect.printTypedActorFound host port])
  | resolveResult.err e =>
      (s1, behavior.unconnected, pre ++ [effect.printCannotConnect host port e])

/-- Events delivered to the client actor: an arithmetic message, a connect
message bundled with the outcome its await-mode resolver call eventually
produces, a down notification carrying the source handle, and the firing of
an arithmetic request continuation (success or failure). -/
inductive event
  | arith (op : Op) (x y : Int)
  | connectMsg (host : String) (port : Nat) (r : resolveResult)
  | downMsg (source : Nat)
  | requestSucceeded (op : Op) (x y : Int) (result : Int)
  | requestFailed (op : Op) (x y : Int)

/-- One dispatch step of the client actor. The down handler installed by
init compares the source of the notification with current_server and only
acts on a match. Arithmetic messages are queued while unconnected and
dispatched through the broker while running. Connect messages run the
connecting transition from whichever behavior is installed. A failed
arithmetic request re-sends the identical operation to the own mailbox; a
successful one prints the result. -/
def step (c : client) (e : event) : client × List effect :=
  match e with
  | event.downMsg src =>
      if some src = c.st.current_server then
        (⟨⟨none, c.st.tasks⟩, behavior.unconnected⟩, [effect.printLostConnection])
      else
        (c, [])
  | event.requestFailed op x y => (c, [effect.sendSelf op x y])
  | event.requestSucceeded op x y r => (c, [effect.printResult x op y r])
  | event.arith op x y =>
      match c.beh with
      | behavior.unconnected =>
          (⟨⟨c.st.current_server, c.st.tasks ++ [⟨op, x, y⟩]⟩, behavior.unconnected⟩, [])
      | behavior.running calculator => (c, [send_task calculator op x y])
  | event.connectMsg host port r =>
      let cn := connecting c.st c.beh host port r
      (⟨cn.1, cn.2.1⟩, cn.2.2)

/-- The freshly spawned client produced by init: empty queue, no server,
unconnected behavior (init installs the down handler and returns
unconnected). -/
def init : client := ⟨⟨none, []⟩, behavior.unconnected⟩

/-- Clients reachable from the initial client by dispatch steps. -/
inductive Reachable : client → Prop
  | start : Reachable init
  | next (c : client) (e : event) : Reachable c → Reachable (step c e).1

/-- Whitespace predicate of the C isspace function in the default locale. -/
def isSpaceChar (c : Char) : Bool :=
  c = ' ' || c = '\t' || c = '\n' || c = '\x0b' || c = '\x0c' || c = '\r'

/-- The trim helper: remove leading and trailing whitespace. -/
def trim (s : String) : String :=
  String.mk (((s.toList.dropWhile isSpaceChar).reverse.dropWhile isSpaceChar).reverse)

/-- Value of a base-ten digit string. -/
def digitsVal (ds : List Char) : Nat :=
  ds.foldl (fun a c => a * 10 + (c.toNat - 48)) 0

/-- Largest value of the 64-bit C long type. -/
def longMax : Int := 2 ^ 63 - 1

/-- Smallest value of the 64-bit C long type. -/
def longMin : Int := -(2 ^ 63)

/-- Out-of-range results of strtol saturate at the bounds of long. -/
def clampLong (v : Int) : Int :=
  if v > longMax then longMax else if v < longMin then longMin else v

/-- Truncating conversion from long to the 32-bit int type. -/
def wrap32 (v : Int) : Int := (v + 2 ^ 31) % 2 ^ 32 - 2 ^ 31

/-- Model of strtol with base ten: skip leading whitespace, accept an
optional sign, consume digits, and report the rest of the input after the
last digit consumed; when no digit is consumed the value is zero and the
reported rest is the entire original input. -/
def strtol10 (s : List Char) : Int × List Char :=
  let t := s.dropWhile isSpaceChar
  let signAndRest : Bool × List Char :=
    match t with
    | '-' :: u => (true, u)
    | '+' :: u => (false, u)
    | _ => (false, t)
  let ds := signAndRest.2.takeWhile Char.isDigit
  let rest := signAndRest.2.dropWhile Char.isDigit
  if ds.isEmpty then (0, s)
  else
    let mag : Int := Int.ofNat (digitsVal ds)
    (clampLong (if signAndRest.1 then -mag else mag), rest)

/-- Largest value of the 64-bit unsigned long type. -/
def ulongMax : Nat := 2 ^ 64 - 1

/-- Model of strtoul with base ten: like strtol but in the unsigned long
type. When the digit magnitude overflows the unsigned long range the result
is the largest unsigned long (the out-of-range result, regardless of any
sign); otherwise a leading minus sign negates the in-range magnitude in the
unsigned type. -/
def strtoul10 (s : List Char) : Nat × List Char :=
  let t := s.dropWhile isSpaceChar
  let signAndRest : Bool × List Char :=
    match t with
    | '-' :: u => (true, u)
    | '+' :: u => (false, u)
    | _ => (false, t)
  let ds := signAndRest.2.takeWhile Char.isDigit
  let rest := signAndRest.2.dropWhile Char.isDigit
  if ds.isEmpty then (0, s)
  else
    let mag := digitsVal ds
    if mag > ulongMax then (ulongMax, rest)
    else (if signAndRest.1 then (2 ^ 64 - mag) % 2 ^ 64 else mag, rest)

/-- The toint helper: convert the whole string with strtol, cast the result
to int, and succeed only when the end pointer reached the end of the
string. -/
def toint (str : String) : Option Int :=
  let r := strtol10 str.toList
  if r.2.isEmpty then some (wrap32 r.1) else none

/-- Actions of the interactive REPL while handling one input line: the two
local diagnostic prints of the connect validation, the usage text printed
when no handler matches the tokenized line, and the three kinds of message
sent to the client actor. -/
inductive ReplAction
  | printNotUnsignedInteger (tok : String)
  | printPortTooLarge (tok : String)
  | usage
  | sendConnect (host : String) (port : Nat)
  | sendArith (op : Op) (x y : Int)
  | sendExit
deriving DecidableEq, Repr

/-- The eval message handler of client_repl applied to the tokenized line,
together with the usage fallback of the read loop: one token is the quit
check, three tokens are either the connect command (with local port
validation) or an arithmetic command (operands parsed with toint, operator
compared against plus and minus), and any other token count matches no
handler so the usage text is printed. The second component is the done flag
set by quit. -/
def evalWords (words : List String) : List ReplAction × Bool :=
  match words with
  | [cmd] =>
      if cmd = "quit" then ([ReplAction.sendExit], true) else ([], false)
  | [arg0, arg1, arg2] =>
      if arg0 = "connect" then
        let r := strtoul10 arg2.toList
        if ¬ r.2.isEmpty then ([ReplAction.printNotUnsignedInteger arg2], false)
        else if r.1 > 65535 then ([ReplAction.printPortTooLarge arg2], false)
        else ([ReplAction.sendConnect arg1 r.1], false)
      else
        match toint arg0, toint arg2 with
        | some x, some y =>
            if arg1 = "+" then ([ReplAction.sendArith Op.add x y], false)
            else if arg1 = "-" then ([ReplAction.sendArith Op.sub x y], false)
            else ([], false)
        | _, _ => ([], false)
  | _ => ([ReplAction.usage], false)

/-- Plain split of a character list at every space, keeping empty pieces. -/
def splitOnSpace : List Char → List Char → List (List Char)
  | [], acc => [acc.reverse]
  | c :: rest, acc =>
      if c = ' ' then acc.reverse :: splitOnSpace rest []
      else splitOnSpace rest (c :: acc)

/-- Tokenization of one input line body: boost split on spaces with token
compression, which for a trimmed line is splitting on spaces and dropping
empty tokens, except that the empty line yields one empty token. -/
def splitWords (s : String) : List String :=
  if s.isEmpty then [""]
  else ((splitOnSpace s.toList []).map String.mk).filter (fun w => ¬ w.isEmpty)

/-- Processing of one raw input line by the REPL read loop: trim, tokenize,
evaluate. -/
def client_repl_line (line : String) : List ReplAction × Bool :=
  evalWords (splitWords (trim line))

/-- Actions of run_server in order: the publish announcement, then either
the failure report, or the success report followed by waiting for one line
of operator input and sending the worker an exit. -/
inductive ServerAction
  | printTryPublish (port : Nat)
  | printPublishFailed (e : String)
  | printPublished (port : Nat)
  | readLine
  | printCya
  | sendExitToCalc
deriving DecidableEq, Repr

/-- The run_server procedure as a function of the publish outcome: announce
the attempt; on failure report the cause and return without serving; on
success report the bound port, block on one operator input line, and shut
the worker down. -/
def run_server (port : Nat) (publishResult : Except String Nat) : List ServerAction :=
  ServerAction.printTryPublish port ::
    match publishResult with
    | Except.error e => [ServerAction.printPublishFailed e]
    | Except.ok p =>
        [ServerAction.printPublished p, ServerAction.readLine,
         ServerAction.printCya, ServerAction.sendExitToCalc]

/-- Claim C1: for every client whose connect attempt resolves successfully
with a compatible peer (a non-null remote handle and an empty interface
set), the client adopts that handle as its current server, subscribes the
monitor to it, dispatches every queued task through the broker in
continuation mode in exactly the FIFO order the tasks were enqueued, clears
the task queue, and installs the running behavior. -/
theorem C1_connect_success_replays_fifo (c : client) (host : String)
    (port : Nat) (serv : Nat) :
    step c (event.connectMsg host port (resolveResult.ok (some serv) [])) =
      (⟨⟨some serv, []⟩, behavior.running serv⟩,
        effect.awaitRequestMM infinite host port ::
          effect.printConnected :: effect.monitor serv ::
            c.st.tasks.map
              (fun t => effect.thenRequest serv task_timeout t.op t.lhs t.rhs)) := by
  rfl

/-- Counterexample to claim C2: a connect attempt issued from Running whose
resolver succeeds but yields a null handle leaves the client in the running
behavior (bound to the old calculator), not in Unconnected, because the
early-return branches of the resolver continuation never install a new
behavior. -/
theorem C2_counterexample_running_stays_running :
    (step ⟨⟨some 5, []⟩, behavior.running 5⟩
        (event.connectMsg "localhost" 4242 (resolveResult.ok none []))).1.beh
      = behavior.running 5
  ∧ behavior.running 5 ≠ behavior.unconnected := by
  exact ⟨rfl, by decide⟩

/-- Claim C2 as amended: a connect attempt whose resolver reports an error
always ends Unconnected; a connect attempt whose resolver succeeds but
yields a null handle or a non-empty interface set reports an error, clears
current_server, and leaves the client in the behavior from which the
connect was issued (Unconnected when issued from Unconnected, still the old
running behavior when issued from Running). -/
theorem C2_amended_failed_connect (c : client) (host : String) (port : Nat)
    (e : String) (serv : Nat) (ifs : List String) (hifs : ifs ≠ []) :
    step c (event.connectMsg host port (resolveResult.err e)) =
      (⟨⟨none, c.st.tasks⟩, behavior.unconnected⟩,
        [effect.awaitRequestMM infinite host port,
         effect.printCannotConnect host port e])
  ∧ step c (event.connectMsg host port (resolveResult.ok none ifs)) =
      (⟨⟨none, c.st.tasks⟩, c.beh⟩,
        [effect.awaitRequestMM infinite host port,
         effect.printNoServerFound host port])
  ∧ step c (event.connectMsg host port (resolveResult.ok (some serv) ifs)) =
      (⟨⟨none, c.st.tasks⟩, c.beh⟩,
        [effect.awaitRequestMM infinite host port,
         effect.printTypedActorFound host port]) := by
  refine ⟨rfl, rfl, ?_⟩
  have h : ifs.isEmpty = false := by
    cases ifs with
    | nil => cases hifs rfl
    | cons a l => rfl
  simp [step, connecting, h]

/-- Witness for the amended claim C2 at a concrete typed-actor reply. -/
theorem C2_amended_failed_connect_witness :
    step init (event.connectMsg "localhost" 4242
        (resolveResult.ok (some 5) ["iface"])) =
      (⟨⟨none, []⟩, behavior.unconnected⟩,
        [effect.awaitRequestMM infinite "localhost" 4242,
         effect.printTypedActorFound "localhost" 4242]) :=
  (C2_amended_failed_connect init "localhost" 4242 "e" 5 ["iface"]
    (by decide)).2.2

/-- Claim C3: a down notification makes the client discard its handle and
revert to Unconnected exactly when its source equals the currently tracked
current_server; a notification from any other (stale) source leaves the
client and its effects unchanged. -/
theorem C3_down_only_for_current_server (c : client) (src : Nat) :
    (some src = c.st.current_server →
        step c (event.downMsg src)
          = (⟨⟨none, c.st.tasks⟩, behavior.unconnected⟩,
             [effect.printLostConnection]))
  ∧ (some src ≠ c.st.current_server → step c (event.downMsg src) = (c, [])) := by
  constructor <;> intro h <;> simp [step, h]

/-- Witness for claim C3: the matching source reverts a running client, a
stale source leaves a running client untouched. -/
theorem C3_down_only_for_current_server_witness :
    step ⟨⟨some 7, []⟩, behavior.running 7⟩ (event.downMsg 7)
      = (⟨⟨none, []⟩, behavior.unconnected⟩, [effect.printLostConnection])
  ∧ step ⟨⟨some 7, []⟩, behavior.running 7⟩ (event.downMsg 8)
      = (⟨⟨some 7, []⟩, behavior.running 7⟩, []) := by
  constructor
  · exact (C3_down_only_for_current_server ⟨⟨some 7, []⟩, behavior.running 7⟩ 7).1 rfl
  · exact (C3_down_only_for_current_server ⟨⟨some 7, []⟩, behavior.running 7⟩ 8).2 (by decide)

/-- Claim C4: the failure continuation of an arithmetic broker request
re-sends the identical operation (same operation kind and both operands) to
the own mailbox, leaving the client record (including the task queue)
unchanged, and an arithmetic message delivered to a running client is
dispatched again through the broker; nothing bounds the number of such
retries. -/
theorem C4_failure_continuation_resends (c d : client) (op : Op) (x y : Int)
    (calculator : Nat) (hd : d.beh = behavior.running calculator) :
    step c (event.requestFailed op x y) = (c, [effect.sendSelf op x y])
  ∧ (step d (event.arith op x y)).2
      = [effect.thenRequest calculator task_timeout op x y] := by
  refine ⟨rfl, ?_⟩
  obtain ⟨st, beh⟩ := d
  cases beh with
  | unconnected => simp at hd
  | running k =>
      injection hd with h
      subst h
      rfl

/-- Witness for claim C4 at a concrete failed addition. -/
theorem C4_failure_continuation_resends_witness :
    step init (event.requestFailed Op.add 3 4)
      = (init, [effect.sendSelf Op.add 3 4])
  ∧ (step ⟨⟨some 5, []⟩, behavior.running 5⟩ (event.arith Op.add 3 4)).2
      = [effect.thenRequest 5 task_timeout Op.add 3 4] :=
  C4_failure_continuation_resends init ⟨⟨some 5, []⟩, behavior.running 5⟩
    Op.add 3 4 5 rfl

/-- Claim C5: in every reachable client, the task queue is non-empty only
while the installed behavior is not running; equivalently, a reachable
client with the running behavior has an empty task queue. -/
theorem C5_running_implies_empty_queue (c : client) (h : Reachable c) :
    ∀ calculator : Nat, c.beh = behavior.running calculator → c.st.tasks = [] := by
  induction h with
  | start =>
      intro calculator hb
      simp [init] at hb
  | next c0 e hr ih =>
      obtain ⟨⟨cs, ts⟩, beh⟩ := c0
      intro calculator hb
      cases e with
      | arith op x y =>
          cases beh with
          | unconnected => simp [step] at hb
          | running k => exact ih k rfl
      | connectMsg host port r =>
          cases r with
          | ok serv ifs =>
              cases serv with
              | none => exact ih calculator hb
              | some sv =>
                  by_cases hifs : ifs.isEmpty = true
                  · simp [step, connecting, running, hifs]
                  · simp [step, connecting, hifs] at hb ⊢
                    exact ih calculator hb
          | err e => simp [step, connecting] at hb
      | downMsg src =>
          by_cases hsrc : some src = cs
          · simp [step, hsrc] at hb
          · simp [step, hsrc] at hb ⊢
            exact ih calculator hb
      | requestSucceeded op x y r => exact ih calculator hb
      | requestFailed op x y => exact ih calculator hb

/-- Witness for claim C5: the client reached by one successful connect step
from the initial client is running and has an empty queue. -/
theorem C5_running_implies_empty_queue_witness :
    (step init (event.connectMsg "localhost" 4242
        (resolveResult.ok (some 5) []))).1.st.tasks = [] :=
  C5_running_implies_empty_queue _
    (Reachable.next init
      (event.connectMsg "localhost" 4242 (resolveResult.ok (some 5) []))
      Reachable.start) 5 rfl

/-- Counterexample to claim C6: the resolver (connect) request is issued
with the infinite timeout, that is with no deadline at all, so it is not
true that every outbound request carries an explicit deadline. -/
theorem C6_counterexample_resolver_has_no_deadline :
    (step init (event.connectMsg "localhost" 4242 (resolveResult.err "error"))).2
      = [effect.awaitRequestMM none "localhost" 4242,
         effect.printCannotConnect "localhost" 4242 "error"]
  ∧ infinite = none :=
  ⟨rfl, rfl⟩

/-- Claim C6 as amended: every arithmetic request carries the explicit
ten-second task_timeout deadline, while the resolver request is issued with
the infinite timeout and therefore carries no deadline, so only a
transport-reported failure can reach its failure continuation. -/
theorem C6_amended_deadlines (c : client) (op : Op) (x y : Int)
    (calculator : Nat) (hb : c.beh = behavior.running calculator)
    (host : String) (port : Nat) (r : resolveResult) :
    (step c (event.arith op x y)).2
      = [effect.thenRequest calculator (some 10) op x y]
  ∧ (step c (event.connectMsg host port r)).2.head?
      = some (effect.awaitRequestMM none host port) := by
  constructor
  · obtain ⟨st, beh⟩ := c
    cases beh with
    | unconnected => simp at hb
    | running k =>
        injection hb with h
        subst h
        rfl
  · obtain ⟨st, beh⟩ := c
    cases r with
    | ok serv ifs =>
        cases serv with
        | none => rfl
        | some sv =>
            by_cases hifs : ifs.isEmpty = true <;>
              simp [step, connecting, running, hifs, infinite]
    | err e => rfl

/-- Witness for the amended claim C6 at a concrete running client. -/
theorem C6_amended_deadlines_witness :
    (step ⟨⟨some 5, []⟩, behavior.running 5⟩ (event.arith Op.add 3 4)).2
      = [effect.thenRequest 5 (some 10) Op.add 3 4]
  ∧ (step ⟨⟨some 5, []⟩, behavior.running 5⟩
        (event.connectMsg "localhost" 4242 (resolveResult.err "e"))).2.head?
      = some (effect.awaitRequestMM none "localhost" 4242) :=
  C6_amended_deadlines ⟨⟨some 5, []⟩, behavior.running 5⟩ Op.add 3 4 5 rfl
    "localhost" 4242 (resolveResult.err "e")

/-- Counterexample to claim C7: the three-token line with non-integer
operands produces no action at all: no message is sent, but no usage
message is printed either, because the three-string handler matches the
line and simply does nothing. -/
theorem C7_counterexample_bad_operands_print_nothing :
    client_repl_line "foo + bar" = ([], false)
  ∧ ReplAction.usage ∉ (client_repl_line "foo + bar").1
  ∧ evalWords ["foo", "+", "bar"] = ([], false) := by
  exact ⟨by decide, by decide, by decide⟩

/-- Claim C7 as amended: for every malformed interactive input line —
non-integer operands in a three-token arithmetic command, or an
out-of-range port in a connect command — the REPL sends no message to the
client agent, so the malformed input never reaches the runtime and
triggers no resolver call; but the local rejection is not by usage
message: the out-of-range port prints a specific out-of-range diagnostic
rather than the usage text, and non-integer operands are dropped
silently, with nothing printed at all. -/
theorem C7_amended_malformed_input_is_local (a0 a1 a2 b1 b2 : String)
    (hne : a0 ≠ "connect") (hbad : toint a0 = none ∨ toint a2 = none)
    (hrest : (strtoul10 b2.toList).2 = [])
    (hport : (strtoul10 b2.toList).1 > 65535) :
    evalWords [a0, a1, a2] = ([], false)
  ∧ evalWords ["connect", b1, b2]
      = ([ReplAction.printPortTooLarge b2], false) := by
  constructor
  · cases hbad with
    | inl h0 => simp [evalWords, hne, h0]
    | inr h2 =>
        cases h0 : toint a0 with
        | none => simp [evalWords, hne, h0]
        | some x => simp [evalWords, hne, h0, h2]
  · have hr : (strtoul10 b2.data).2 = [] := hrest
    have hp2 : 65535 < (strtoul10 b2.data).1 := hport
    simp [evalWords, hr, hp2]

/-- Witness for the amended claim C7 at concrete malformed lines. -/
theorem C7_amended_malformed_input_is_local_witness :
    evalWords ["foo", "x", "bar"] = ([], false)
  ∧ evalWords ["connect", "localhost", "99999"]
      = ([ReplAction.printPortTooLarge "99999"], false) :=
  C7_amended_malformed_input_is_local "foo" "x" "bar" "localhost" "99999"
    (by decide) (Or.inl (by decide)) (by decide) (by decide)

/-- Claim C8: when publishing the worker fails, run_server reports the
cause and returns without reading operator input and without any serving
action; when publishing succeeds it serves until the operator enters a
line and then sends the worker an exit. -/
theorem C8_publish_failure_aborts_startup (port : Nat) (e : String) (p : Nat) :
    run_server port (Except.error e)
      = [ServerAction.printTryPublish port, ServerAction.printPublishFailed e]
  ∧ run_server port (Except.ok p)
      = [ServerAction.printTryPublish port, ServerAction.printPublished p,
         ServerAction.readLine, ServerAction.printCya,
         ServerAction.sendExitToCalc] :=
  ⟨rfl, rfl⟩

/-- Claim C9: a failure continuation firing after the client has reverted
to Unconnected re-sends the operation to the own mailbox, and the
unconnected behavior then appends exactly that operation to the task queue
instead of dropping it, so it is replayed after the next successful
connect. -/
theorem C9_failure_after_revert_requeues (c : client) (op : Op) (x y : Int)
    (hb : c.beh = behavior.unconnected) :
    step c (event.requestFailed op x y) = (c, [effect.sendSelf op x y])
  ∧ step c (event.arith op x y)
      = (⟨⟨c.st.current_server, c.st.tasks ++ [⟨op, x, y⟩]⟩,
          behavior.unconnected⟩, []) := by
  refine ⟨rfl, ?_⟩
  obtain ⟨st, beh⟩ := c
  cases beh with
  | unconnected => rfl
  | running k => simp at hb

/-- Witness for claim C9 at a concrete subtraction on the initial client. -/
theorem C9_failure_after_revert_requeues_witness :
    step init (event.requestFailed Op.sub 8 2)
      = (init, [effect.sendSelf Op.sub 8 2])
  ∧ step init (event.arith Op.sub 8 2)
      = (⟨⟨none, [⟨Op.sub, 8, 2⟩]⟩, behavior.unconnected⟩, []) :=
  C9_failure_after_revert_requeues init Op.sub 8 2 rfl

/-- Claim C10: a three-token line whose first and third tokens parse as
integers but whose middle token is neither plus nor minus produces no
action: nothing is sent to the client and nothing (in particular no usage
text) is printed. -/
theorem C10_unknown_operator_silently_ignored (t1 t2 t3 : String) (x y : Int)
    (h1 : toint t1 = some x) (h3 : toint t3 = some y)
    (hp : t2 ≠ "+") (hm : t2 ≠ "-") :
    evalWords [t1, t2, t3] = ([], false) := by
  have hc : t1 ≠ "connect" := by
    intro hEq
    rw [hEq] at h1
    have hcn : toint "connect" = none := by decide
    rw [hcn] at h1
    cases h1
  simp [evalWords, hc, h1, h3, hp, hm]

/-- Witness for claim C10 at the line with a star operator. -/
theorem C10_unknown_operator_silently_ignored_witness :
    evalWords ["3", "*", "4"] = ([], false) :=
  C10_unknown_operator_silently_ignored "3" "*" "4" 3 4
    (by decide) (by decide) (by decide) (by decide)

end DistributedCalculator
